import Mathlib

/-!
Verification of the HX711 multi-channel driver (`src/HX711Multi.py`) of the
Xenia-1 flight computer against its natural-language specification.

The Python class `HX711_Multi` is shallowly embedded below.  GPIO reads are
modelled by level functions (`true` = logical HIGH): `isReady` samples one
level per data pin, `readRaw` samples one level per clock pulse and pin.
Writes to the shared clock pin `PD_SCK` are recorded as an explicit trace of
driven levels, so that pulse counts of the protocol can be stated.  Integer
arithmetic of the source is embedded over `Nat`/`Int` with the source's own
shift and or operations; the floating-point statistics of `tare` are embedded
over `ℝ`.
-/

/-- Embedding of `__setGain`: gain 128 stores pulse count 1, gain 64 stores
pulse count 3, and any other value leaves the stored count unset (`None` in
the source, since `__gain` is initialised to `None` and the method assigns
nothing on this branch). -/
def setGain (gain : Int) : Option Nat :=
  if gain = 128 then some 1
  else if gain = 64 then some 3
  else none

/-- Embedding of the diagnostic branch of `__setGain`: on an unsupported gain
value the source prints a message when (and only when) debug is enabled; it
raises no error in any case. -/
def setGainWarns (gain : Int) (debug : Bool) : Bool :=
  if gain = 128 then false
  else if gain = 64 then false
  else debug

/-- State of one `HX711_Multi` instance: the fields of the Python class that
carry behaviour (`__PD_SCK_pin`, `__DOUT_pins`, `__gain`, `__debug_enabled`,
`__offsets`). -/
structure HX711Multi where
  sckPin : Nat
  doutPins : List Nat
  gain : Option Nat
  debugEnabled : Bool
  offsets : List ℝ

/-- Embedding of `__init__`: stores the pins and the debug flag, sets the gain
pulse count via `setGain`, and leaves the offsets at their class-level default
`[]`.  Construction is a total function: no input makes it fail. -/
def HX711Multi.init (dataPins : List Nat) (clockPin : Nat) (gain : Int)
    (debug : Bool) : HX711Multi :=
  { sckPin := clockPin
    doutPins := dataPins
    gain := setGain gain
    debugEnabled := debug
    offsets := [] }

/-- Embedding of `isReady`.  The source walks the data pins; on a HIGH pin it
returns `False` unless debug is enabled, in which case it prints and
`continue`s (the `continue` sits before the `return False`, which is
therefore skipped). -/
def isReadyAux (debug : Bool) (levels : Nat → Bool) : List Nat → Bool
  | [] => true
  | pin :: rest =>
    if levels pin then
      if debug then isReadyAux debug levels rest
      else false
    else isReadyAux debug levels rest

/-- `isReady` of an instance, given the current level of each data pin. -/
def HX711Multi.isReady (m : HX711Multi) (levels : Nat → Bool) : Bool :=
  isReadyAux m.debugEnabled levels m.doutPins

/-- Numeric value of a sampled data-pin level, as used by `readings[i] |=
GPIO.input(data_pin)`. -/
def dataBit (b : Bool) : Nat := if b then 1 else 0

/-- Embedding of the 24-iteration data loop of `readRaw`.  Iteration `p`
drives `PD_SCK` HIGH then LOW (appended to the trace) and replaces every
channel accumulator `r` paired with its data pin by `r <<< 1 ||| level`,
where `level` is the pin's level during pulse `p`.  The accumulators start
as `[0] * len(self.__DOUT_pins)`. -/
def dataPhase (levels : Nat → Nat → Bool) (pins : List Nat) :
    Nat → List Bool × List Nat
  | 0 => ([], List.replicate pins.length 0)
  | p + 1 =>
    let s := dataPhase levels pins p
    (s.1 ++ [true, false],
      List.zipWith (fun r pin => (r <<< 1) ||| dataBit (levels p pin)) s.2 pins)

/-- Embedding of the gain loop of `readRaw`: `g` further HIGH/LOW cycles of
`PD_SCK`, touching no data pin. -/
def gainPhase : Nat → List Bool
  | 0 => []
  | g + 1 => gainPhase g ++ [true, false]

/-- Embedding of the final loop of `readRaw`:
`for reading in readings: if reading & (1 << (24-1)) != 0: reading = reading - (1 << 24)`.
The conversion is computed into the loop variable `reading`, which is a fresh
local rebinding on every iteration; the list itself is never written back,
so the returned values are the unsigned accumulators. -/
def twosComplementPass (readings : List Nat) : List Int :=
  readings.map fun reading =>
    let _converted : Int :=
      if reading &&& (1 <<< (24 - 1)) ≠ 0 then (reading : Int) - (1 <<< 24)
      else (reading : Int)
    (reading : Int)

/-- Spec's decode, for comparison with `twosComplementPass` (§4.1 of the
spec): two's-complement interpretation of a 24-bit pattern — if bit 23 is
set, subtract `2 ^ 24`. -/
def specSigned24 (reading : Nat) : Int :=
  if reading &&& (1 <<< 23) ≠ 0 then (reading : Int) - (1 <<< 24)
  else (reading : Int)

/-- Outcome of one `readRaw` protocol cycle: the levels driven onto `PD_SCK`,
in order, and the returned vector. -/
structure RawRun where
  sckTrace : List Bool
  readings : List Int

/-- Embedding of the body of `readRaw` for a set gain pulse count `g`:
24 data pulses, one extra `GPIO.output(PD_SCK, LOW)`, `g` gain pulses, then
the (ineffective) two's-complement pass over the accumulators. -/
def readRawRun (pins : List Nat) (g : Nat) (levels : Nat → Nat → Bool) :
    RawRun :=
  let d := dataPhase levels pins 24
  { sckTrace := d.1 ++ [false] ++ gainPhase g
    readings := twosComplementPass d.2 }

/-- `readRaw` on an instance.  When `__gain` is `None` (unsupported gain at
construction), the loop `for _ in range(self.__gain)` raises `TypeError`
after the 24 data pulses, so the call produces no return value: modelled as
`none`.  Note the source checks readiness only to print a debug message; it
never aborts the acquisition. -/
def readRawResult (m : HX711Multi) (levels : Nat → Nat → Bool) :
    Option (List Int) :=
  match m.gain with
  | none => none
  | some g => some (readRawRun m.doutPins g levels).readings

/-- Element-wise subtraction of two numpy 1-D arrays, as in
`np.array(raw_readings) - np.array(self.__offsets)`: shapes `(n,)` and `(m,)`
broadcast iff `n = m` or one of them is `1`; otherwise numpy raises
`ValueError`, modelled as `none`. -/
noncomputable def npSub (a : List Int) (b : List ℝ) : Option (List ℝ) :=
  if a.length = b.length then
    some (List.zipWith (fun x y => (x : ℝ) - y) a b)
  else if a.length = 1 then
    some (b.map fun y => (a.headD 0 : ℝ) - y)
  else if b.length = 1 then
    some (a.map fun x => (x : ℝ) - b.headD 0)
  else none

/-- Embedding of `read`: call `readRaw`, then return the numpy difference of
the raw vector and the stored offsets.  The source's guard
`if raw_readings == False` is always false — `readRaw` always returns a list
and a Python list never equals `False` — so `read` always proceeds to the
subtraction; a `TypeError` from `readRaw` (unset gain) propagates. -/
noncomputable def HX711Multi.read (m : HX711Multi)
    (levels : Nat → Nat → Bool) : Option (List ℝ) :=
  match readRawResult m levels with
  | none => none
  | some raw => npSub raw m.offsets

/-- Mean of a channel's samples, as `np.mean` over one row (float arithmetic
idealised over `ℝ`). -/
noncomputable def npMean (xs : List Int) : ℝ := (xs.sum : ℝ) / xs.length

/-- Population standard deviation of a channel's samples, as `np.std` over
one row: square root of the mean squared deviation from the mean. -/
noncomputable def npStd (xs : List Int) : ℝ :=
  Real.sqrt (((xs.map fun x : Int => ((x : ℝ) - npMean xs) ^ 2).sum) / xs.length)

/-- Mean of a channel's retained samples, as `np.average` over one row. -/
noncomputable def npAverage (xs : List Int) : ℝ := (xs.sum : ℝ) / xs.length

/-- Per-channel outlier rejection of `tare`: the row of the boolean mask
`dists_from_means <= max_std_dev_from_mean * std_devs` applied to the
channel's row, keeping a sample iff its absolute deviation from the row mean
is at most `d` times the row standard deviation. -/
noncomputable def cleanChannel (d : ℝ) (xs : List Int) : List Int :=
  xs.filter fun x => decide (|(x : ℝ) - npMean xs| ≤ d * npStd xs)

/-- Embedding of `np.array(samples).T` for the collected samples: with `n`
channels, row `i` of the transposed array holds sample `i` of every
collected vector (every vector has one entry per channel). -/
def transposeRows (n : Nat) (rows : List (List Int)) : List (List Int) :=
  (List.range n).map fun i => rows.map fun r => r.getD i 0

/-- Result value of `tare`: `insufficientSamples` is the early `return False`,
`excessiveDeviationBranch` is the `return false` line of the deviation gate
(a `NameError` in the source, as `false` is unbound in Python), `success` is
the final `return True`. -/
inductive TareResult where
  | insufficientSamples
  | excessiveDeviationBranch
  | success
deriving DecidableEq

/-- Observable outcome of one `tare` call: its result value, the offsets
stored afterwards, and the number of acquisition cycles (readiness poll plus
`readRaw`) performed on the pins. -/
structure TareRun where
  result : TareResult
  offsets : List ℝ
  acquisitions : Nat

/-- Embedding of `tare`.  Fewer than 100 samples fail immediately, before the
sampling loop, touching no pin and leaving the offsets as they were.
Otherwise the loop collects `numSamples` vectors (given here as `stream`),
the array is transposed to one row per channel, each row is filtered by
`cleanChannel`, and the gate compares `len(clean_data)` — the number of
channel rows — against `0.8 * len(samples)` — `samples` being the transposed
array, whose `len` is also the number of channel rows.  The source computes
`clean_data_length`, the total retained sample count, but never uses it.
On passing the gate the offsets become the per-row averages. -/
noncomputable def tare (m : HX711Multi) (numSamples : Nat) (maxStdDev : ℝ)
    (stream : List (List Int)) : TareRun :=
  if numSamples < 100 then
    { result := .insufficientSamples, offsets := m.offsets, acquisitions := 0 }
  else
    let samples := stream.take numSamples
    let samplesT := transposeRows m.doutPins.length samples
    let cleanData := samplesT.map (cleanChannel maxStdDev)
    let _cleanDataLength := (cleanData.map List.length).sum
    if (cleanData.length : ℝ) < 0.8 * (samplesT.length : ℝ) then
      { result := .excessiveDeviationBranch, offsets := m.offsets,
        acquisitions := numSamples }
    else
      { result := .success, offsets := cleanData.map npAverage,
        acquisitions := numSamples }

/-- Pin levels that are HIGH exactly during the first clock pulse: they build
the 24-bit pattern 0x800000 in every channel accumulator. -/
def msbOnlyLevels : Nat → Nat → Bool := fun p _ => p == 0

/-- One channel's worth of samples exercising the deviation gate: fifty
samples of 0 and fifty of 2 (mean 1, so with deviation factor 0 every sample
is an outlier). -/
def c1Row : List Int := List.replicate 50 0 ++ List.replicate 50 2

/-- The same samples as single-channel sample vectors. -/
def c1Stream : List (List Int) := List.replicate 50 [0] ++ List.replicate 50 [2]

/-! Helper lemmas. -/

theorem list_filter_replicate {α : Type} (p : α → Bool) (n : Nat) (a : α) :
    (List.replicate n a).filter p
      = if p a then List.replicate n a else [] := by
  induction n with
  | zero => simp
  | succ k ih =>
    rw [List.replicate_succ, List.filter_cons, ih]
    by_cases h : p a <;> simp [h, List.replicate_succ]

theorem list_map_eq_replicate {α β : Type} (f : α → β) (b : β)
    (l : List α) (h : ∀ x ∈ l, f x = b) :
    l.map f = List.replicate l.length b := by
  induction l with
  | nil => simp
  | cons x xs ih =>
    rw [List.map_cons, h x (by simp), List.length_cons, List.replicate_succ,
      ih fun y hy => h y (by simp [hy])]

theorem npMean_replicate (n : Nat) (V : Int) (hn : 0 < n) :
    npMean (List.replicate n V) = (V : ℝ) := by
  have hn0 : (n : ℝ) ≠ 0 := Nat.cast_ne_zero.mpr hn.ne'
  simp [npMean, List.sum_replicate, smul_eq_mul]
  field_simp

theorem npStd_replicate (n : Nat) (V : Int) (hn : 0 < n) :
    npStd (List.replicate n V) = 0 := by
  rw [npStd, npMean_replicate n V hn, List.map_replicate]
  simp

theorem npAverage_replicate (n : Nat) (V : Int) (hn : 0 < n) :
    npAverage (List.replicate n V) = (V : ℝ) := by
  have hn0 : (n : ℝ) ≠ 0 := Nat.cast_ne_zero.mpr hn.ne'
  simp [npAverage, List.sum_replicate, smul_eq_mul]
  field_simp

theorem cleanChannel_replicate (d : ℝ) (n : Nat) (V : Int) (hn : 0 < n) :
    cleanChannel d (List.replicate n V) = List.replicate n V := by
  rw [cleanChannel, list_filter_replicate]
  rw [if_pos]
  rw [npMean_replicate n V hn, npStd_replicate n V hn]
  simp

theorem not_cast_lt_point_eight (k : Nat) : ¬((k : ℝ) < 0.8 * k) := by
  have h : (0.8 : ℝ) * k ≤ 1 * k :=
    mul_le_mul_of_nonneg_right (by norm_num) (Nat.cast_nonneg k)
  simp only [one_mul] at h
  exact not_lt.mpr h

theorem shiftOr_eq (r b : Nat) (hb : b < 2) : (r <<< 1) ||| b = 2 * r + b := by
  have h := Nat.mul_add_lt_is_or (i := 1) (by simpa using hb) r
  norm_num at h
  rw [Nat.shiftLeft_eq, pow_one, mul_comm r 2]
  exact h.symm

/-- C3: isReady returns true iff every data pin reads low, independently of
the debug flag.  Refuted: with debug enabled the diagnostic branch
`continue`s past the `return False`, so a HIGH pin is skipped and `isReady`
returns `True`; with debug disabled the same levels give `False`. -/
theorem C3_debug_changes_isReady :
    (HX711Multi.init [17] 5 128 true).isReady (fun _ => true) = true ∧
    (HX711Multi.init [17] 5 128 false).isReady (fun _ => true) = false := by
  constructor <;> rfl

/-- C5: an unsupported gain value should be a construction-time error.
Refuted: construction with gain 100 completes (it is a total function),
stores no gain pulse count, warns only when debug is on, and the supported
values map to pulse counts 1 and 3. -/
theorem C5_invalid_gain_not_an_error :
    (HX711Multi.init [17] 5 100 false).gain = none ∧
    (HX711Multi.init [17] 5 100 true).gain = none ∧
    setGainWarns 100 false = false ∧
    setGainWarns 100 true = true ∧
    setGain 128 = some 1 ∧
    setGain 64 = some 3 := by
  refine ⟨rfl, rfl, rfl, rfl, rfl, rfl⟩

/-- C2: the returned vector should decode 24-bit two's complement.
Refuted: the conversion loop rebinds its loop variable and never writes the
list, so the bit pattern 0x800000 is returned as 8388608, not −8388608; the
spec's decode `specSigned24` gives the claimed values. -/
theorem C2_sign_conversion_never_applied :
    (readRawRun [17] 1 msbOnlyLevels).readings = [(8388608 : Int)] ∧
    specSigned24 0x800000 = -8388608 ∧
    specSigned24 0x7FFFFF = 8388607 ∧
    specSigned24 0x000001 = 1 ∧
    specSigned24 0x000000 = 0 := by
  refine ⟨rfl, by decide, by decide, by decide, by decide⟩

/-- C9: acquisition while not every channel is ready should surface a
NotReady failure.  Refuted: with the single data pin stuck HIGH, `isReady`
is false, yet `readRaw` proceeds through the full protocol and returns the
sampled (stale) bits `0xFFFFFF`; no failure value is produced. -/
theorem C9_readRaw_proceeds_when_not_ready :
    (HX711Multi.init [17] 5 128 false).isReady (fun _ => true) = false ∧
    readRawResult (HX711Multi.init [17] 5 128 false) (fun _ _ => true) =
      some [(16777215 : Int)] := by
  constructor <;> rfl

theorem dataBit_lt_two (b : Bool) : dataBit b < 2 := by
  cases b <;> simp [dataBit]

theorem dataPhase_fst (levels : Nat → Nat → Bool) (pins : List Nat) (k : Nat) :
    (dataPhase levels pins k).1 = (List.replicate k [true, false]).flatten := by
  induction k with
  | zero => rfl
  | succ p ih => simp [dataPhase, ih, List.replicate_succ']

theorem gainPhase_eq (g : Nat) :
    gainPhase g = (List.replicate g [true, false]).flatten := by
  induction g with
  | zero => rfl
  | succ k ih => simp [gainPhase, ih, List.replicate_succ']

theorem count_true_join_replicate (n : Nat) :
    ((List.replicate n [true, false]).flatten).count true = n := by
  induction n with
  | zero => rfl
  | succ k ih => simp [List.replicate_succ', List.count_append, ih]

theorem dataPhase_snd (levels : Nat → Nat → Bool) (pins : List Nat) (k : Nat) :
    (dataPhase levels pins k).2
      = pins.map fun pin =>
          ∑ p ∈ Finset.range k, if levels p pin then 2 ^ (k - 1 - p) else 0 := by
  induction k with
  | zero => simp [dataPhase, List.map_const']
  | succ q ih =>
    simp only [dataPhase, ih, List.zipWith_map_left, List.zipWith_same]
    apply List.map_congr_left
    intro pin _
    rw [shiftOr_eq _ _ (dataBit_lt_two _), Finset.mul_sum, Finset.sum_range_succ]
    congr 1
    · apply Finset.sum_congr rfl
      intro p hp
      rw [Finset.mem_range] at hp
      rw [mul_ite, mul_zero, ← pow_succ']
      congr 2
      omega
    · simp [dataBit]

/-- C4: one readRaw protocol cycle drives exactly 24 data clock pulses (HIGH
then LOW each), building every channel's accumulator by shift-and-or so that
pulse 1 carries weight 2^23 (MSB first), then one extra LOW write and exactly
`g` gain pulses that sample no data (the returned values depend only on the
levels of pulses 0..23), and returns one value per configured data pin. -/
theorem C4_readRaw_protocol (pins : List Nat) (g : Nat)
    (levels : Nat → Nat → Bool) :
    (readRawRun pins g levels).sckTrace
      = (List.replicate 24 [true, false]).flatten ++ [false]
        ++ (List.replicate g [true, false]).flatten ∧
    (readRawRun pins g levels).sckTrace.count true = 24 + g ∧
    (readRawRun pins g levels).readings.length = pins.length ∧
    (readRawRun pins g levels).readings
      = pins.map fun pin =>
          ((∑ p ∈ Finset.range 24,
            if levels p pin then 2 ^ (23 - p) else 0 : ℕ) : Int) := by
  have htr : (readRawRun pins g levels).sckTrace
      = (List.replicate 24 [true, false]).flatten ++ [false]
        ++ (List.replicate g [true, false]).flatten := by
    simp [readRawRun, dataPhase_fst, gainPhase_eq]
  have hrd : (readRawRun pins g levels).readings
      = pins.map fun pin =>
          ((∑ p ∈ Finset.range 24,
            if levels p pin then 2 ^ (23 - p) else 0 : ℕ) : Int) := by
    simp only [readRawRun, twosComplementPass, dataPhase_snd, List.map_map]
    norm_num
  refine ⟨htr, ?_, ?_, hrd⟩
  · rw [htr]
    simp [List.count_append, count_true_join_replicate]
    omega
  · rw [hrd]
    simp

/-- C6: tare with fewer than 100 samples fails immediately as
InsufficientSamples, performs no acquisition cycle (no pin is touched), and
leaves the stored offsets unchanged. -/
theorem C6_insufficient_samples (m : HX711Multi) (n : Nat) (d : ℝ)
    (stream : List (List Int)) (h : n < 100) :
    tare m n d stream
      = { result := .insufficientSamples, offsets := m.offsets,
          acquisitions := 0 } := by
  rw [tare, if_pos h]

/-- Witness for C6 at sample count 50 on a freshly constructed instance. -/
theorem C6_witness :
    tare (HX711Multi.init [17] 5 128 false) 50 0 []
      = { result := .insufficientSamples, offsets := [],
          acquisitions := 0 } := by
  have h := C6_insufficient_samples (HX711Multi.init [17] 5 128 false) 50 0 []
    (by norm_num)
  simpa [HX711Multi.init] using h

/-- C1: tare should fail with ExcessiveDeviation when more than 20% of all
samples are discarded.  Refuted: the gate compares the number of channel
rows against 0.8 times the number of channel rows, which no natural number
satisfies, so tare can only fail as InsufficientSamples; concretely, with
one channel, 100 samples of which fifty are 0 and fifty are 2, and deviation
factor 0, every one of the 100 samples is discarded (0% retained) yet tare
returns success. -/
theorem C1_excessive_deviation_gate_unreachable :
    (∀ (m : HX711Multi) (n : Nat) (d : ℝ) (stream : List (List Int)),
      (tare m n d stream).result = TareResult.insufficientSamples ∨
      (tare m n d stream).result = TareResult.success) ∧
    (tare (HX711Multi.init [17] 5 128 false) 100 0 c1Stream).result
      = TareResult.success ∧
    cleanChannel 0 c1Row = [] ∧
    c1Row.length = 100 := by
  have hgen : ∀ (m : HX711Multi) (n : Nat) (d : ℝ) (stream : List (List Int)),
      (tare m n d stream).result = TareResult.insufficientSamples ∨
      (tare m n d stream).result = TareResult.success := by
    intro m n d stream
    by_cases h : n < 100
    · left
      rw [tare, if_pos h]
    · right
      rw [tare, if_neg h]
      simp only [List.length_map]
      rw [if_neg (not_cast_lt_point_eight _)]
  have hclean : cleanChannel 0 c1Row = [] := by
    have hmean : npMean c1Row = 1 := by
      simp [npMean, c1Row, List.sum_append, List.sum_replicate, smul_eq_mul]
    show cleanChannel 0 (List.replicate 50 (0 : Int) ++ List.replicate 50 2) = []
    rw [cleanChannel]
    rw [List.filter_append, list_filter_replicate, list_filter_replicate]
    have hrow : (List.replicate 50 (0 : Int) ++ List.replicate 50 2) = c1Row := rfl
    rw [hrow, hmean, zero_mul]
    norm_num
  refine ⟨hgen, ?_, hclean, rfl⟩
  rcases hgen (HX711Multi.init [17] 5 128 false) 100 0 c1Stream with h | h
  · rw [tare, if_neg (by norm_num)] at h
    simp only [List.length_map] at h
    rw [if_neg (not_cast_lt_point_eight _)] at h
    exact absurd h (by simp)
  · exact h

/-- C7: outlier rejection is per channel — each channel is filtered against
its own mean and standard deviation — so a channel whose samples all equal V
has mean V and standard deviation 0, retains every sample, and tare (which
can only fail on the sample-count precondition) succeeds and stores V as
that channel's offset. -/
theorem C7_zero_variance_channel_offset (m : HX711Multi) (d : ℝ)
    (stream : List (List Int)) (c : Nat) (V : Int)
    (hc : c < m.doutPins.length) (hlen : 100 ≤ stream.length) (_hd : 0 ≤ d)
    (hV : ∀ v ∈ stream, v.getD c 0 = V) :
    (tare m 100 d stream).result = TareResult.success ∧
    (tare m 100 d stream).offsets.getD c 0 = (V : ℝ) := by
  have hrow : (stream.take 100).map (fun r => r.getD c 0)
      = List.replicate 100 V := by
    rw [list_map_eq_replicate _ V _
      (fun v hv => hV v (List.mem_of_mem_take hv))]
    rw [List.length_take, Nat.min_eq_left hlen]
  have htare : tare m 100 d stream
      = { result := .success,
          offsets := ((transposeRows m.doutPins.length (stream.take 100)).map
            (cleanChannel d)).map npAverage,
          acquisitions := 100 } := by
    rw [tare, if_neg (by norm_num)]
    simp only [List.length_map]
    rw [if_neg (not_cast_lt_point_eight _)]
  have hTc : (transposeRows m.doutPins.length (List.take 100 stream))[c]?
      = some (List.replicate 100 V) := by
    rw [transposeRows, List.getElem?_map, List.getElem?_range hc]
    simp only [Option.map_some']
    rw [hrow]
  have h1 : (List.map npAverage (List.map (cleanChannel d)
      (transposeRows m.doutPins.length (List.take 100 stream))))[c]?
      = some ((V : ℝ)) := by
    rw [List.getElem?_map, List.getElem?_map, hTc]
    simp only [Option.map_some']
    rw [cleanChannel_replicate d 100 V (by norm_num),
      npAverage_replicate 100 V (by norm_num)]
  refine ⟨by rw [htare], ?_⟩
  rw [htare]
  show (List.map npAverage (List.map (cleanChannel d)
    (transposeRows m.doutPins.length (List.take 100 stream)))).getD c 0 = (V : ℝ)
  rw [List.getD_eq_getElem?_getD, h1, Option.getD_some]

/-- Witness for C7: one channel whose 100 samples are all 5, deviation
factor 0; tare succeeds and the stored offset is 5. -/
theorem C7_witness :
    (tare (HX711Multi.init [17] 5 128 false) 100 0
      (List.replicate 100 [(5 : Int)])).result = TareResult.success ∧
    (tare (HX711Multi.init [17] 5 128 false) 100 0
      (List.replicate 100 [(5 : Int)])).offsets.getD 0 0 = (5 : ℝ) := by
  refine C7_zero_variance_channel_offset _ 0 _ 0 5 ?_ ?_ le_rfl ?_
  · simp [HX711Multi.init]
  · simp
  · intro v hv
    rw [List.eq_of_mem_replicate hv]
    rfl

/-- C8: before any tare, calibrated readings should equal raw readings
because the offsets default to all zeros.  Refuted: the offsets default to
the empty list, so on a two-channel instance the numpy subtraction of a
shape-(2,) raw vector and the shape-(0,) offsets raises ValueError and read
produces no vector at all; the raw-minus-offset arithmetic itself is as
claimed once the lengths match (5 − 5 = 0). -/
theorem C8_read_before_tare_has_no_result :
    (HX711Multi.init [17, 22] 5 128 false).offsets = [] ∧
    (HX711Multi.init [17, 22] 5 128 false).read (fun _ _ => false) = none ∧
    npSub [5] [(5 : ℝ)] = some [0] := by
  refine ⟨rfl, rfl, ?_⟩
  norm_num [npSub]

/-- C10: an unsupported gain value leaves construction successful with the
gain pulse count unset, and every later readRaw or read on the instance
aborts with an uncontrolled TypeError (the gain loop iterates over None)
instead of an explicit failure result. -/
theorem C10_invalid_gain_crashes_later_reads (dataPins : List Nat)
    (clockPin : Nat) (g : Int) (debug : Bool) (levels : Nat → Nat → Bool)
    (h128 : g ≠ 128) (h64 : g ≠ 64) :
    (HX711Multi.init dataPins clockPin g debug).gain = none ∧
    readRawResult (HX711Multi.init dataPins clockPin g debug) levels = none ∧
    (HX711Multi.init dataPins clockPin g debug).read levels = none := by
  have hg : setGain g = none := by
    rw [setGain, if_neg h128, if_neg h64]
  refine ⟨hg, ?_, ?_⟩
  · rw [readRawResult]
    simp [HX711Multi.init, hg]
  · rw [HX711Multi.read]
    simp [readRawResult, HX711Multi.init, hg]

/-- Witness for C10 at gain 100 on a one-channel instance. -/
theorem C10_witness :
    (HX711Multi.init [17] 5 100 false).gain = none ∧
    readRawResult (HX711Multi.init [17] 5 100 false) (fun _ _ => false)
      = none ∧
    (HX711Multi.init [17] 5 100 false).read (fun _ _ => false) = none :=
  C10_invalid_gain_crashes_later_reads [17] 5 100 false (fun _ _ => false)
    (by decide) (by decide)
